import Mathlib

/-!
Verification of the YUM repository synchronization core (`yum/repository.go`).

The Go source is shallowly embedded below:
* `GoTime` models `time.Time` values as integer nanoseconds since the zero
  `time.Time` (January 1, year 1 UTC); `timeUnix` models `time.Unix(sec, nsec)`
  (whose internal epoch offset is `unixToInternal = 62135596800` seconds) and
  `GoTime.after` models `Time.After` (strict comparison of instants).
* `RepoMD`, `RawData` and `buildRepoMD` model the `RepoMD` struct and the
  decoding loop of `checkRepoMD`; XML timestamps (`float64` in Go) are modelled
  as rationals, which is exact on all inputs the claims evaluate.
  The external XML library call `xml.Unmarshal` is an input (`xmlUnmarshal`).
* A `BackendSpec` records the observable behaviour of one registered backend
  (its `YumDataType`, and the outcomes of `HasDB`, `GetLatestDB`, `LoadDB`);
  the `World` supplies the registry lookup and file-system outcomes.
* `setupBackendFromRemote` / `setupBackendFromLocal` are the two orchestrator
  entry points; their candidate loops are `remoteLoopGo` / `localLoopGo`, whose
  bodies (`remoteTryCandidate` / `localTryCandidate`) return the state updates
  and the `Event` trace produced while evaluating one candidate.
* The nil-interface forwarding of `Repository.FindLatestMatchingName`,
  `FindLatestMatchingRequire` and `GetPackages` is modelled by `GoOutcome`,
  whose `panics` constructor records a Go runtime panic.
-/

/-- Raw bytes of a file or HTTP body, one `Nat` per byte. -/
abbrev Bytes := List Nat

/-- Seconds between January 1, year 1 and the Unix epoch, as in Go's
`time` package (`unixToInternal`). -/
def unixToInternal : Int := 62135596800

/-- A Go `time.Time` instant: nanoseconds since the zero `time.Time`
(January 1, year 1 UTC). The zero value of `time.Time` is `⟨0⟩`. -/
structure GoTime where
  nsSinceZero : Int
deriving DecidableEq

/-- The zero value of `time.Time` (what a missing map entry yields in Go). -/
def GoTime.zero : GoTime := ⟨0⟩

/-- Model of `time.Unix(sec, nsec)`: the instant `sec` seconds plus `nsec`
nanoseconds after the Unix epoch. -/
def timeUnix (sec nsec : Int) : GoTime :=
  ⟨(sec + unixToInternal) * 1000000000 + nsec⟩

/-- Model of `Time.After`: `t.after u` holds iff `t` is strictly later. -/
def GoTime.after (t u : GoTime) : Bool :=
  decide (u.nsSinceZero < t.nsSinceZero)

/-- The `RepoMD` struct of the source: one decoded metadata record. -/
structure RepoMD where
  checksum : String
  timestamp : GoTime
  location : String
deriving DecidableEq

/-- The zero value of `RepoMD`, produced by a failed Go map lookup
(`lrepomd, ok := localmd[...]` with `ok == false`). -/
def RepoMD.zero : RepoMD := ⟨"", GoTime.zero, ""⟩

/-- One `<data>` entry as produced by `xml.Unmarshal` inside `checkRepoMD`:
type attribute, checksum, location href, and the floating-point timestamp
(modelled as a rational number of seconds since the Unix epoch). -/
structure RawData where
  dataType : String
  checksum : String
  locationHref : String
  timestamp : ℚ
deriving DecidableEq

/-- Lookup in the decoded metadata map (Go `map[string]RepoMD` access). -/
def mdFind : List (String × RepoMD) → String → Option RepoMD
  | [], _ => none
  | (k, v) :: rest, key => if k = key then some v else mdFind rest key

/-- Insertion into the decoded metadata map (Go `db[data.Type] = ...`):
replaces an existing binding, so the last write for a key wins. -/
def mdInsert : List (String × RepoMD) → String → RepoMD → List (String × RepoMD)
  | [], key, v => [(key, v)]
  | (k, w) :: rest, key, v =>
    if k = key then (key, v) :: rest else (k, w) :: mdInsert rest key v

/-- The timestamp split of `checkRepoMD`:
`sec := int64(math.Floor(ts)); nsec := int64((ts - float64(sec)) * 1e9)`.
The fractional part is non-negative, so Go's toward-zero `int64` conversion
coincides with the floor taken here. -/
def splitTimestamp (ts : ℚ) : Int × Int :=
  let sec : Int := Int.floor ts
  let nsec : Int := Int.floor ((ts - (sec : ℚ)) * 1000000000)
  (sec, nsec)

/-- The decoding loop of `checkRepoMD`: builds the map from data-type to
`RepoMD` record, converting each timestamp with `splitTimestamp` and
`time.Unix`. -/
def buildRepoMD (tree : List RawData) : List (String × RepoMD) :=
  tree.foldl
    (fun db d =>
      mdInsert db d.dataType
        { checksum := d.checksum
          timestamp := timeUnix (splitTimestamp d.timestamp).1 (splitTimestamp d.timestamp).2
          location := d.locationHref })
    []

/-- Model of `checkRepoMD`: empty input yields an empty map and no error
(`if len(data) <= 0 { return nil, nil }`); otherwise the external
`xml.Unmarshal` runs (given here as `xmlUnmarshal`) and on success the
decoding loop builds the map. -/
def checkRepoMD (xmlUnmarshal : Bytes → Except String (List RawData))
    (data : Bytes) : Except String (List (String × RepoMD)) :=
  if data.length ≤ 0 then Except.ok []
  else
    match xmlUnmarshal data with
    | Except.error e => Except.error e
    | Except.ok tree => Except.ok (buildRepoMD tree)

/-- The observable behaviour of one backend (the `Backend` interface methods
used by synchronization): its repomd data-type identifier, whether `HasDB`
reports an existing local database, and whether `GetLatestDB` and `LoadDB`
succeed when invoked during this run. -/
structure BackendSpec where
  yumDataType : String
  hasDB : Bool
  downloadOK : Bool
  loadOK : Bool
deriving DecidableEq

/-- The environment of one synchronization run: the global backend registry
(`NewBackend`, `none` = "no such backend"), the outcome of
`ioutil.WriteFile` on the local repomd file per candidate attempt, and
whether the existing local repomd file can be read. -/
structure World where
  registry : String → Option BackendSpec
  writeOK : String → Bool
  localReadOK : Bool

/-- Externally observable actions of a run, in order. -/
inductive Event where
  | evHttpGet (url : String)
  | evNewBackend (bname : String)
  | evGetLatestDB (bname : String) (url : String)
  | evWriteFile (content : Bytes)
  | evLoadDB (bname : String)
deriving DecidableEq

/-- Mutable state threaded through a candidate loop: the function-local
`backend` variable, the `repo.Backend` field, the content of the cached
`repomd.xml` file (`none` = file absent), and the event trace so far. -/
structure LoopState where
  backendVar : Option BackendSpec
  repoBackend : Option BackendSpec
  cache : Option Bytes
  events : List Event
deriving DecidableEq

/-- Result of evaluating one candidate: the updated variables and cache,
the events this candidate caused, and whether it completed successfully
(reaching the `break`). -/
structure TryOut where
  backendVar : Option BackendSpec
  repoBackend : Option BackendSpec
  cache : Option Bytes
  events : List Event
  succeeded : Bool
deriving DecidableEq

/-- The remote metadata URL: `url + "/repodata/repomd.xml"`. -/
def repoMdUrl (repoUrl : String) : String := repoUrl ++ "/repodata/repomd.xml"

/-- One iteration of the candidate loop of `setupBackendFromRemote`
(lines 144–201 of `repository.go`): instantiate via the registry, require
the data-type in the remote map, tentatively commit, decide staleness
against the local record (zero value if absent), download and persist when
an update is needed, then load; every failure abandons the candidate. -/
def remoteTryCandidate (w : World) (repoUrl : String) (remotedata : Bytes)
    (remotemd localmd : List (String × RepoMD)) (bname : String)
    (s : LoopState) : TryOut :=
  match w.registry bname with
  | none =>
    { backendVar := s.backendVar, repoBackend := s.repoBackend, cache := s.cache
      events := [Event.evNewBackend bname], succeeded := false }
  | some ba =>
    match mdFind remotemd ba.yumDataType with
    | none =>
      { backendVar := s.backendVar, repoBackend := s.repoBackend, cache := s.cache
        events := [Event.evNewBackend bname], succeeded := false }
    | some rrepomd =>
      let lrepomd := (mdFind localmd ba.yumDataType).getD RepoMD.zero
      if !ba.hasDB || GoTime.after rrepomd.timestamp lrepomd.timestamp then
        let url := repoUrl ++ "/" ++ rrepomd.location
        if ba.downloadOK then
          if w.writeOK bname then
            if ba.loadOK then
              { backendVar := some ba, repoBackend := some ba
                cache := some remotedata
                events := [Event.evNewBackend bname, Event.evGetLatestDB bname url,
                           Event.evWriteFile remotedata, Event.evLoadDB bname]
                succeeded := true }
            else
              { backendVar := none, repoBackend := none
                cache := some remotedata
                events := [Event.evNewBackend bname, Event.evGetLatestDB bname url,
                           Event.evWriteFile remotedata, Event.evLoadDB bname]
                succeeded := false }
          else
            { backendVar := none, repoBackend := none, cache := s.cache
              events := [Event.evNewBackend bname, Event.evGetLatestDB bname url,
                         Event.evWriteFile remotedata]
              succeeded := false }
        else
          { backendVar := none, repoBackend := none, cache := s.cache
            events := [Event.evNewBackend bname, Event.evGetLatestDB bname url]
            succeeded := false }
      else
        if ba.loadOK then
          { backendVar := some ba, repoBackend := some ba, cache := s.cache
            events := [Event.evNewBackend bname, Event.evLoadDB bname]
            succeeded := true }
        else
          { backendVar := none, repoBackend := none, cache := s.cache
            events := [Event.evNewBackend bname, Event.evLoadDB bname]
            succeeded := false }

/-- The candidate loop of `setupBackendFromRemote`: try each name in order,
stop at the first success (`break`), otherwise continue with the next. -/
def remoteLoopGo (w : World) (repoUrl : String) (remotedata : Bytes)
    (remotemd localmd : List (String × RepoMD)) :
    List String → LoopState → LoopState
  | [], s => s
  | bname :: rest, s =>
    let o := remoteTryCandidate w repoUrl remotedata remotemd localmd bname s
    let s' : LoopState := ⟨o.backendVar, o.repoBackend, o.cache, s.events ++ o.events⟩
    if o.succeeded then s'
    else remoteLoopGo w repoUrl remotedata remotemd localmd rest s'

/-- One iteration of the candidate loop of `setupBackendFromLocal`
(lines 226–254): registry instantiation, presence-in-local-metadata check,
tentative commit, then `LoadDB`; no download, no cache write. -/
def localTryCandidate (w : World) (md : List (String × RepoMD)) (bname : String)
    (s : LoopState) : TryOut :=
  match w.registry bname with
  | none =>
    { backendVar := s.backendVar, repoBackend := s.repoBackend, cache := s.cache
      events := [Event.evNewBackend bname], succeeded := false }
  | some ba =>
    match mdFind md ba.yumDataType with
    | none =>
      { backendVar := s.backendVar, repoBackend := s.repoBackend, cache := s.cache
        events := [Event.evNewBackend bname], succeeded := false }
    | some _ =>
      if ba.loadOK then
        { backendVar := some ba, repoBackend := some ba, cache := s.cache
          events := [Event.evNewBackend bname, Event.evLoadDB bname]
          succeeded := true }
      else
        { backendVar := none, repoBackend := none, cache := s.cache
          events := [Event.evNewBackend bname, Event.evLoadDB bname]
          succeeded := false }

/-- The candidate loop of `setupBackendFromLocal`. -/
def localLoopGo (w : World) (md : List (String × RepoMD)) :
    List String → LoopState → LoopState
  | [], s => s
  | bname :: rest, s =>
    let o := localTryCandidate w md bname s
    let s' : LoopState := ⟨o.backendVar, o.repoBackend, o.cache, s.events ++ o.events⟩
    if o.succeeded then s'
    else localLoopGo w md rest s'

/-- Model of `localMetadata`: a missing cache file yields empty bytes and no
error; an unreadable existing file is an IO error. -/
def localMetadata (w : World) (cache : Option Bytes) : Except String Bytes :=
  match cache with
  | none => Except.ok []
  | some bs => if w.localReadOK then Except.ok bs else Except.error "io: read error"

/-- Result of one synchronization run: the final state and the returned
error (`none` = success). -/
structure RunResult where
  finalState : LoopState
  error : Option String
deriving DecidableEq

/-- Model of `setupBackendFromRemote`: fetch the remote document (the HTTP
outcome is the input `fetch`), parse it, read and parse the local cached
document, run the candidate loop, and fail with "No valid backend found"
when no candidate succeeded. `backend0`/`cache0` are the repository state
at entry (`NewRepository` always enters with `backend0 = none`). -/
def setupBackendFromRemote (w : World) (repoUrl : String)
    (fetch : Except String Bytes)
    (xmlUnmarshal : Bytes → Except String (List RawData))
    (backends : List String)
    (backend0 : Option BackendSpec) (cache0 : Option Bytes) : RunResult :=
  let s0 : LoopState := ⟨none, backend0, cache0, [Event.evHttpGet (repoMdUrl repoUrl)]⟩
  match fetch with
  | Except.error e => ⟨s0, some e⟩
  | Except.ok remotedata =>
    match checkRepoMD xmlUnmarshal remotedata with
    | Except.error e => ⟨s0, some e⟩
    | Except.ok remotemd =>
      match localMetadata w cache0 with
      | Except.error e => ⟨s0, some e⟩
      | Except.ok localdata =>
        match checkRepoMD xmlUnmarshal localdata with
        | Except.error e => ⟨s0, some e⟩
        | Except.ok localmd =>
          let s1 := remoteLoopGo w repoUrl remotedata remotemd localmd backends s0
          if s1.backendVar.isNone then ⟨s1, some "No valid backend found"⟩
          else ⟨s1, none⟩

/-- Model of `setupBackendFromLocal`: read and parse only the local cached
document, run the local candidate loop, fail with "No valid backend found"
when no candidate succeeded. -/
def setupBackendFromLocal (w : World)
    (xmlUnmarshal : Bytes → Except String (List RawData))
    (backends : List String)
    (backend0 : Option BackendSpec) (cache0 : Option Bytes) : RunResult :=
  let s0 : LoopState := ⟨none, backend0, cache0, []⟩
  match localMetadata w cache0 with
  | Except.error e => ⟨s0, some e⟩
  | Except.ok data =>
    match checkRepoMD xmlUnmarshal data with
    | Except.error e => ⟨s0, some e⟩
    | Except.ok md =>
      let s1 := localLoopGo w md backends s0
      if s1.backendVar.isNone then ⟨s1, some "No valid backend found"⟩
      else ⟨s1, none⟩

/-- Recognizes a `GetLatestDB` (database download) event. -/
def isDownloadEvent : Event → Bool
  | Event.evGetLatestDB _ _ => true
  | _ => false

/-- Whether a candidate's evaluation performed a database download. -/
def downloadPerformed (o : TryOut) : Bool := o.events.any isDownloadEvent

/-- Events that the local-only candidate loop may produce: registry
instantiation and `LoadDB` only — no HTTP fetch, no download, no file
write. -/
def localOnlyEvent : Event → Bool
  | Event.evNewBackend _ => true
  | Event.evLoadDB _ => true
  | _ => false

/-- A package, opaque to the synchronization core. -/
structure Package where
  name : String
deriving DecidableEq

/-- Query behaviour of an active backend (the query methods of the
`Backend` interface). -/
structure QueryBackend where
  findLatestMatchingName : String → String → String → Except String Package
  findLatestMatchingRequire : String → Except String Package
  getPackages : List Package

/-- Outcome of running a Go statement: a value, or a runtime panic. -/
inductive GoOutcome (α : Type) where
  | panics
  | ok (val : α)
deriving DecidableEq

/-- Model of `Repository.FindLatestMatchingName`: the method is forwarded to
`repo.Backend` with no nil check, so a repository without an active backend
panics (nil-interface method call). -/
def repoFindLatestMatchingName (b : Option QueryBackend) (name version release : String) :
    GoOutcome (Except String Package) :=
  match b with
  | none => GoOutcome.panics
  | some qb => GoOutcome.ok (qb.findLatestMatchingName name version release)

/-- Model of `Repository.FindLatestMatchingRequire` (same forwarding). -/
def repoFindLatestMatchingRequire (b : Option QueryBackend) (requirement : String) :
    GoOutcome (Except String Package) :=
  match b with
  | none => GoOutcome.panics
  | some qb => GoOutcome.ok (qb.findLatestMatchingRequire requirement)

/-- Model of `Repository.GetPackages` (same forwarding). -/
def repoGetPackages (b : Option QueryBackend) : GoOutcome (List Package) :=
  match b with
  | none => GoOutcome.panics
  | some qb => GoOutcome.ok qb.getPackages

/-- Invariant relating the loop variable, the committed backend and the
trace: either nothing is committed, or the local variable and `repo.Backend`
agree on a backend whose `LoadDB` succeeded and was invoked. -/
def SyncInv (s : LoopState) : Prop :=
  (s.backendVar = none ∧ s.repoBackend = none) ∨
  (∃ ba, s.backendVar = some ba ∧ s.repoBackend = some ba ∧ ba.loadOK = true ∧
    ∃ bn, Event.evLoadDB bn ∈ s.events)

/-- Concrete world for the C4 witness: one backend "a" for data-type
"primary" with all operations succeeding. -/
def c4w : World :=
  { registry := fun n => if n = "a" then some ⟨"primary", false, true, true⟩ else none
    writeOK := fun _ => true
    localReadOK := true }

/-- Concrete parse function for the C4 witness: document `[1]` declares one
"primary" entry. -/
def c4xml : Bytes → Except String (List RawData) :=
  fun data => if data = [1] then Except.ok [⟨"primary", "c", "l", (5 : ℚ)⟩] else Except.ok []

/-- Concrete world for the C5 witness: an empty registry. -/
def c5w : World :=
  { registry := fun _ => none, writeOK := fun _ => true, localReadOK := true }

/-- Concrete parse function for the C5 witness. -/
def c5xml : Bytes → Except String (List RawData) := fun _ => Except.ok []

/-- Concrete world for the C1 witness: backend "b" with an existing local
database. -/
def c1w : World :=
  { registry := fun n => if n = "b" then some ⟨"primary", true, true, true⟩ else none
    writeOK := fun _ => true
    localReadOK := true }

/-- Recognizes a metadata cache `WriteFile` event. -/
def isWriteEvent : Event → Bool
  | Event.evWriteFile _ => true
  | _ => false

/-- Backend "a" of the C2 counterexample: no local DB, download succeeds,
load fails. -/
def c2baA : BackendSpec := ⟨"primary", false, true, false⟩

/-- Backend "b" of the C2 counterexample: current local DB, load succeeds. -/
def c2baB : BackendSpec := ⟨"primary", true, true, true⟩

/-- World of the C2 counterexample. -/
def c2w : World :=
  { registry := fun n => if n = "a" then some c2baA else if n = "b" then some c2baB else none
    writeOK := fun _ => true
    localReadOK := true }

/-- Parse function of the C2 counterexample: local document `[1]` and remote
document `[2]` both declare one "primary" entry with equal timestamps. -/
def c2xml : Bytes → Except String (List RawData) :=
  fun data =>
    if data = [1] then Except.ok [⟨"primary", "lc", "lloc", (5 : ℚ)⟩]
    else if data = [2] then Except.ok [⟨"primary", "rc", "rloc", (5 : ℚ)⟩]
    else Except.ok []

/-- The C2 counterexample run: candidates ["a", "b"], remote document `[2]`,
cached local document `[1]`. -/
def c2run : RunResult :=
  setupBackendFromRemote c2w "u" (Except.ok [2]) c2xml ["a", "b"] none (some [1])

/-- Backend "p" of the C10 counterexample: no local DB, download succeeds,
load fails. -/
def c10baP : BackendSpec := ⟨"primary", false, true, false⟩

/-- Backend "q" of the C10 counterexample: current local DB, load succeeds. -/
def c10baQ : BackendSpec := ⟨"primary", true, true, true⟩

/-- World of the C10 counterexample. -/
def c10w : World :=
  { registry := fun n => if n = "p" then some c10baP else if n = "q" then some c10baQ else none
    writeOK := fun _ => true
    localReadOK := true }

/-- Parse function of the C10 counterexample: local document `[3]` and
remote document `[7]` both declare one "primary" entry with equal
timestamps. -/
def c10xml : Bytes → Except String (List RawData) :=
  fun data =>
    if data = [3] then Except.ok [⟨"primary", "lc", "lloc", (9 : ℚ)⟩]
    else if data = [7] then Except.ok [⟨"primary", "rc", "rloc", (9 : ℚ)⟩]
    else Except.ok []

/-- The C10 counterexample run: candidates ["p", "q"], remote document
`[7]`, cached local document `[3]`. -/
def c10run : RunResult :=
  setupBackendFromRemote c10w "u" (Except.ok [7]) c10xml ["p", "q"] none (some [3])

/-- A single-candidate variant of the C10 run in which the winning
candidate "q" is tried first. -/
def c10brun : RunResult :=
  setupBackendFromRemote c10w "u" (Except.ok [7]) c10xml ["q"] none (some [3])

section
attribute [local semireducible] Rat.mul Rat.sub Rat.add Rat.ofScientific

theorem remoteTry_inv (w : World) (repoUrl : String) (remotedata : Bytes)
    (remotemd localmd : List (String × RepoMD)) (bname : String) (s : LoopState)
    (h : SyncInv s) :
    SyncInv ⟨(remoteTryCandidate w repoUrl remotedata remotemd localmd bname s).backendVar,
             (remoteTryCandidate w repoUrl remotedata remotemd localmd bname s).repoBackend,
             (remoteTryCandidate w repoUrl remotedata remotemd localmd bname s).cache,
             s.events ++ (remoteTryCandidate w repoUrl remotedata remotemd localmd bname s).events⟩ := by
  cases hreg : w.registry bname with
  | none =>
    rcases h with ⟨h1, h2⟩ | ⟨ba, h1, h2, h3, bn, h4⟩
    · exact Or.inl ⟨by simp [remoteTryCandidate, hreg, h1], by simp [remoteTryCandidate, hreg, h2]⟩
    · exact Or.inr ⟨ba, by simp [remoteTryCandidate, hreg, h1], by simp [remoteTryCandidate, hreg, h2],
        h3, bn, by simp [remoteTryCandidate, hreg]; exact h4⟩
  | some ba =>
    cases hfind : mdFind remotemd ba.yumDataType with
    | none =>
      rcases h with ⟨h1, h2⟩ | ⟨ba', h1, h2, h3, bn, h4⟩
      · exact Or.inl ⟨by simp [remoteTryCandidate, hreg, hfind, h1],
          by simp [remoteTryCandidate, hreg, hfind, h2]⟩
      · exact Or.inr ⟨ba', by simp [remoteTryCandidate, hreg, hfind, h1],
          by simp [remoteTryCandidate, hreg, hfind, h2], h3, bn,
          by simp [remoteTryCandidate, hreg, hfind]; exact h4⟩
    | some rrepomd =>
      simp only [remoteTryCandidate, hreg, hfind]
      cases hc : (!ba.hasDB || GoTime.after rrepomd.timestamp
          ((mdFind localmd ba.yumDataType).getD RepoMD.zero).timestamp) <;>
        cases hd : ba.downloadOK <;>
        cases hw : w.writeOK bname <;>
        cases hl : ba.loadOK <;>
        simp [SyncInv, hc, hd, hw, hl]

theorem remoteLoop_inv (w : World) (repoUrl : String) (remotedata : Bytes)
    (remotemd localmd : List (String × RepoMD)) :
    ∀ (bs : List String) (s : LoopState), SyncInv s →
      SyncInv (remoteLoopGo w repoUrl remotedata remotemd localmd bs s)
  | [], _, h => h
  | bname :: rest, s, h => by
    have h' := remoteTry_inv w repoUrl remotedata remotemd localmd bname s h
    simp only [remoteLoopGo]
    split
    · exact h'
    · exact remoteLoop_inv w repoUrl remotedata remotemd localmd rest _ h'

theorem localTry_inv (w : World) (md : List (String × RepoMD)) (bname : String)
    (s : LoopState) (h : SyncInv s) :
    SyncInv ⟨(localTryCandidate w md bname s).backendVar,
             (localTryCandidate w md bname s).repoBackend,
             (localTryCandidate w md bname s).cache,
             s.events ++ (localTryCandidate w md bname s).events⟩ := by
  cases hreg : w.registry bname with
  | none =>
    rcases h with ⟨h1, h2⟩ | ⟨ba, h1, h2, h3, bn, h4⟩
    · exact Or.inl ⟨by simp [localTryCandidate, hreg, h1], by simp [localTryCandidate, hreg, h2]⟩
    · exact Or.inr ⟨ba, by simp [localTryCandidate, hreg, h1], by simp [localTryCandidate, hreg, h2],
        h3, bn, by simp [localTryCandidate, hreg]; exact h4⟩
  | some ba =>
    cases hfind : mdFind md ba.yumDataType with
    | none =>
      rcases h with ⟨h1, h2⟩ | ⟨ba', h1, h2, h3, bn, h4⟩
      · exact Or.inl ⟨by simp [localTryCandidate, hreg, hfind, h1],
          by simp [localTryCandidate, hreg, hfind, h2]⟩
      · exact Or.inr ⟨ba', by simp [localTryCandidate, hreg, hfind, h1],
          by simp [localTryCandidate, hreg, hfind, h2], h3, bn,
          by simp [localTryCandidate, hreg, hfind]; exact h4⟩
    | some rrepomd =>
      simp only [localTryCandidate, hreg, hfind]
      cases hl : ba.loadOK <;> simp [SyncInv, hl]

theorem localLoop_inv (w : World) (md : List (String × RepoMD)) :
    ∀ (bs : List String) (s : LoopState), SyncInv s →
      SyncInv (localLoopGo w md bs s)
  | [], _, h => h
  | bname :: rest, s, h => by
    have h' := localTry_inv w md bname s h
    simp only [localLoopGo]
    split
    · exact h'
    · exact localLoop_inv w md rest _ h'

/-- C4: for every run of either synchronization mode starting from a fresh
repository (no active backend, as `NewRepository` always does): on success
exactly one backend is committed, its `LoadDB` succeeded and a `LoadDB`
invocation is in the trace; on error no backend is committed. -/
theorem c4_sync_invariant (w : World) (repoUrl : String)
    (fetch : Except String Bytes)
    (xmlUnmarshal : Bytes → Except String (List RawData))
    (backends : List String) (cache0 : Option Bytes) :
    (((setupBackendFromRemote w repoUrl fetch xmlUnmarshal backends none cache0).error = none →
      ∃ ba, (setupBackendFromRemote w repoUrl fetch xmlUnmarshal backends none cache0).finalState.repoBackend
          = some ba ∧ ba.loadOK = true ∧
        ∃ bn, Event.evLoadDB bn ∈
          (setupBackendFromRemote w repoUrl fetch xmlUnmarshal backends none cache0).finalState.events) ∧
     ((setupBackendFromRemote w repoUrl fetch xmlUnmarshal backends none cache0).error ≠ none →
      (setupBackendFromRemote w repoUrl fetch xmlUnmarshal backends none cache0).finalState.repoBackend
          = none)) ∧
    (((setupBackendFromLocal w xmlUnmarshal backends none cache0).error = none →
      ∃ ba, (setupBackendFromLocal w xmlUnmarshal backends none cache0).finalState.repoBackend
          = some ba ∧ ba.loadOK = true ∧
        ∃ bn, Event.evLoadDB bn ∈
          (setupBackendFromLocal w xmlUnmarshal backends none cache0).finalState.events) ∧
     ((setupBackendFromLocal w xmlUnmarshal backends none cache0).error ≠ none →
      (setupBackendFromLocal w xmlUnmarshal backends none cache0).finalState.repoBackend = none)) := by
  constructor
  · cases hf : fetch with
    | error e => simp [setupBackendFromRemote, hf]
    | ok remotedata =>
      cases hc : checkRepoMD xmlUnmarshal remotedata with
      | error e => simp [setupBackendFromRemote, hf, hc]
      | ok remotemd =>
        cases hld : localMetadata w cache0 with
        | error e => simp [setupBackendFromRemote, hf, hc, hld]
        | ok localdata =>
          cases hlm : checkRepoMD xmlUnmarshal localdata with
          | error e => simp [setupBackendFromRemote, hf, hc, hld, hlm]
          | ok localmd =>
            have hinv := remoteLoop_inv w repoUrl remotedata remotemd localmd backends
              ⟨none, none, cache0, [Event.evHttpGet (repoMdUrl repoUrl)]⟩ (Or.inl ⟨rfl, rfl⟩)
            simp only [setupBackendFromRemote, hf, hc, hld, hlm]
            split
            next hnone =>
              rcases hinv with ⟨hbv, hrb⟩ | ⟨ba, hbv, hrb, hlo, bn, hev⟩
              · exact ⟨fun h => absurd h (by simp), fun _ => hrb⟩
              · rw [hbv] at hnone
                simp at hnone
            next hsome =>
              rcases hinv with ⟨hbv, hrb⟩ | ⟨ba, hbv, hrb, hlo, bn, hev⟩
              · rw [hbv] at hsome
                simp at hsome
              · exact ⟨fun _ => ⟨ba, hrb, hlo, bn, hev⟩, fun hne => absurd rfl hne⟩
  · cases hld : localMetadata w cache0 with
    | error e => simp [setupBackendFromLocal, hld]
    | ok data =>
      cases hmd : checkRepoMD xmlUnmarshal data with
      | error e => simp [setupBackendFromLocal, hld, hmd]
      | ok md =>
        have hinv := localLoop_inv w md backends ⟨none, none, cache0, []⟩ (Or.inl ⟨rfl, rfl⟩)
        simp only [setupBackendFromLocal, hld, hmd]
        split
        next hnone =>
          rcases hinv with ⟨hbv, hrb⟩ | ⟨ba, hbv, hrb, hlo, bn, hev⟩
          · exact ⟨fun h => absurd h (by simp), fun _ => hrb⟩
          · rw [hbv] at hnone
            simp at hnone
        next hsome =>
          rcases hinv with ⟨hbv, hrb⟩ | ⟨ba, hbv, hrb, hlo, bn, hev⟩
          · rw [hbv] at hsome
            simp at hsome
          · exact ⟨fun _ => ⟨ba, hrb, hlo, bn, hev⟩, fun hne => absurd rfl hne⟩

theorem c4_sync_invariant_witness :
    (∃ ba, (setupBackendFromRemote c4w "u" (Except.ok [1]) c4xml ["a"] none none).finalState.repoBackend
        = some ba ∧ ba.loadOK = true ∧
      ∃ bn, Event.evLoadDB bn ∈
        (setupBackendFromRemote c4w "u" (Except.ok [1]) c4xml ["a"] none none).finalState.events) ∧
    ((setupBackendFromRemote c4w "u" (Except.ok []) c4xml [] none none).finalState.repoBackend = none) ∧
    (∃ ba, (setupBackendFromLocal c4w c4xml ["a"] none (some [1])).finalState.repoBackend
        = some ba ∧ ba.loadOK = true ∧
      ∃ bn, Event.evLoadDB bn ∈
        (setupBackendFromLocal c4w c4xml ["a"] none (some [1])).finalState.events) ∧
    ((setupBackendFromLocal c4w c4xml [] none none).finalState.repoBackend = none) :=
  ⟨(c4_sync_invariant c4w "u" (Except.ok [1]) c4xml ["a"] none).1.1 (by decide),
   (c4_sync_invariant c4w "u" (Except.ok []) c4xml [] none).1.2 (by decide),
   (c4_sync_invariant c4w "u" (Except.ok []) c4xml ["a"] (some [1])).2.1 (by decide),
   (c4_sync_invariant c4w "u" (Except.ok []) c4xml [] none).2.2 (by decide)⟩

/-- C5: per-candidate failures (unknown registry name, download failure,
persist failure, load failure) make only that candidate fail
(`succeeded = false`), upon which the loop continues with the next name;
no per-candidate error reaches the caller — given a successful pre-loop
phase the run either succeeds or fails with exactly
"No valid backend found" — and the first successful candidate ends the
loop, so later candidates are never tried. -/
theorem c5_candidate_errors (w : World) (repoUrl : String)
    (xmlUnmarshal : Bytes → Except String (List RawData))
    (backends : List String) (b0 : Option BackendSpec) (c0 : Option Bytes)
    (rd ld : Bytes) (rmd lmd : List (String × RepoMD))
    (hr : checkRepoMD xmlUnmarshal rd = Except.ok rmd)
    (hld : localMetadata w c0 = Except.ok ld)
    (hlm : checkRepoMD xmlUnmarshal ld = Except.ok lmd) :
    ((setupBackendFromRemote w repoUrl (Except.ok rd) xmlUnmarshal backends b0 c0).error = none ∨
     (setupBackendFromRemote w repoUrl (Except.ok rd) xmlUnmarshal backends b0 c0).error =
       some "No valid backend found") ∧
    ((setupBackendFromLocal w xmlUnmarshal backends b0 c0).error = none ∨
     (setupBackendFromLocal w xmlUnmarshal backends b0 c0).error =
       some "No valid backend found") ∧
    (∀ bname rest s,
      (remoteTryCandidate w repoUrl rd rmd lmd bname s).succeeded = true →
      remoteLoopGo w repoUrl rd rmd lmd (bname :: rest) s =
        remoteLoopGo w repoUrl rd rmd lmd [bname] s) ∧
    (∀ bname rest s,
      (remoteTryCandidate w repoUrl rd rmd lmd bname s).succeeded = false →
      remoteLoopGo w repoUrl rd rmd lmd (bname :: rest) s =
        remoteLoopGo w repoUrl rd rmd lmd rest
          ⟨(remoteTryCandidate w repoUrl rd rmd lmd bname s).backendVar,
           (remoteTryCandidate w repoUrl rd rmd lmd bname s).repoBackend,
           (remoteTryCandidate w repoUrl rd rmd lmd bname s).cache,
           s.events ++ (remoteTryCandidate w repoUrl rd rmd lmd bname s).events⟩) ∧
    (∀ bname rest s,
      (localTryCandidate w lmd bname s).succeeded = true →
      localLoopGo w lmd (bname :: rest) s = localLoopGo w lmd [bname] s) ∧
    (∀ bname rest s,
      (localTryCandidate w lmd bname s).succeeded = false →
      localLoopGo w lmd (bname :: rest) s =
        localLoopGo w lmd rest
          ⟨(localTryCandidate w lmd bname s).backendVar,
           (localTryCandidate w lmd bname s).repoBackend,
           (localTryCandidate w lmd bname s).cache,
           s.events ++ (localTryCandidate w lmd bname s).events⟩) ∧
    (∀ bname s, w.registry bname = none →
      (remoteTryCandidate w repoUrl rd rmd lmd bname s).succeeded = false) ∧
    (∀ bname s ba rrepomd, w.registry bname = some ba →
      mdFind rmd ba.yumDataType = some rrepomd →
      (!ba.hasDB || GoTime.after rrepomd.timestamp
        ((mdFind lmd ba.yumDataType).getD RepoMD.zero).timestamp) = true →
      ba.downloadOK = false →
      (remoteTryCandidate w repoUrl rd rmd lmd bname s).succeeded = false) ∧
    (∀ bname s ba rrepomd, w.registry bname = some ba →
      mdFind rmd ba.yumDataType = some rrepomd →
      (!ba.hasDB || GoTime.after rrepomd.timestamp
        ((mdFind lmd ba.yumDataType).getD RepoMD.zero).timestamp) = true →
      ba.downloadOK = true → w.writeOK bname = false →
      (remoteTryCandidate w repoUrl rd rmd lmd bname s).succeeded = false) ∧
    (∀ bname s ba, w.registry bname = some ba → ba.loadOK = false →
      (remoteTryCandidate w repoUrl rd rmd lmd bname s).succeeded = false) := by
  refine ⟨?_, ?_, ?_, ?_, ?_, ?_, ?_, ?_, ?_, ?_⟩
  · simp only [setupBackendFromRemote, hr, hld, hlm]
    split
    · exact Or.inr rfl
    · exact Or.inl rfl
  · simp only [setupBackendFromLocal, hld, hlm]
    split
    · exact Or.inr rfl
    · exact Or.inl rfl
  · intro bname rest s h
    simp [remoteLoopGo, h]
  · intro bname rest s h
    simp [remoteLoopGo, h]
  · intro bname rest s h
    simp [localLoopGo, h]
  · intro bname rest s h
    simp [localLoopGo, h]
  · intro bname s h
    simp [remoteTryCandidate, h]
  · intro bname s ba rrepomd hba hf hc hd
    simp [remoteTryCandidate, hba, hf, hc, hd]
  · intro bname s ba rrepomd hba hf hc hdl hw
    simp [remoteTryCandidate, hba, hf, hc, hdl, hw]
  · intro bname s ba hba hl
    cases hf2 : mdFind rmd ba.yumDataType with
    | none => simp [remoteTryCandidate, hba, hf2]
    | some r =>
      simp only [remoteTryCandidate, hba, hf2]
      split
      · cases hd : ba.downloadOK <;> cases hw : w.writeOK bname <;> simp [hd, hw, hl]
      · simp [hl]

theorem c5_candidate_errors_witness :
    ((setupBackendFromRemote c5w "u" (Except.ok []) c5xml ["a"] none none).error = none ∨
     (setupBackendFromRemote c5w "u" (Except.ok []) c5xml ["a"] none none).error =
       some "No valid backend found") ∧
    (remoteTryCandidate c5w "u" [] [] [] "a" ⟨none, none, none, []⟩).succeeded = false :=
  ⟨(c5_candidate_errors c5w "u" c5xml ["a"] none none [] [] [] [] rfl rfl rfl).1,
   (c5_candidate_errors c5w "u" c5xml ["a"] none none [] [] [] [] rfl rfl rfl).2.2.2.2.2.2.1
     "a" ⟨none, none, none, []⟩ rfl⟩

theorem downloadPerformed_remoteTry (w : World) (repoUrl : String) (remotedata : Bytes)
    (remotemd localmd : List (String × RepoMD)) (bname : String) (s : LoopState)
    (ba : BackendSpec) (rrepomd : RepoMD)
    (hba : w.registry bname = some ba)
    (hr : mdFind remotemd ba.yumDataType = some rrepomd) :
    downloadPerformed (remoteTryCandidate w repoUrl remotedata remotemd localmd bname s) =
      (!ba.hasDB || GoTime.after rrepomd.timestamp
        ((mdFind localmd ba.yumDataType).getD RepoMD.zero).timestamp) := by
  simp only [remoteTryCandidate, hba, hr]
  cases hc : (!ba.hasDB || GoTime.after rrepomd.timestamp
      ((mdFind localmd ba.yumDataType).getD RepoMD.zero).timestamp) <;>
    cases hd : ba.downloadOK <;> cases hw : w.writeOK bname <;> cases hl : ba.loadOK <;>
      simp [hc, hd, hw, hl, downloadPerformed, isDownloadEvent]

/-- C1: with the candidate instantiated and its data-type present remotely,
a download happens iff `HasDB` is false or the remote timestamp is strictly
later than the local record's; when the local record is absent the zero
`RepoMD` stands in, so the absence alone does not force a download — with
`HasDB` true it still requires the remote timestamp to be strictly after
the zero time. -/
theorem c1_update_decision (w : World) (repoUrl : String) (remotedata : Bytes)
    (remotemd localmd : List (String × RepoMD)) (bname : String) (s : LoopState)
    (ba : BackendSpec) (rrepomd : RepoMD)
    (hba : w.registry bname = some ba)
    (hr : mdFind remotemd ba.yumDataType = some rrepomd) :
    (∀ lrepomd, mdFind localmd ba.yumDataType = some lrepomd →
      (downloadPerformed (remoteTryCandidate w repoUrl remotedata remotemd localmd bname s) = true ↔
        (ba.hasDB = false ∨ GoTime.after rrepomd.timestamp lrepomd.timestamp = true))) ∧
    (mdFind localmd ba.yumDataType = none →
      ((downloadPerformed (remoteTryCandidate w repoUrl remotedata remotemd localmd bname s) = true ↔
        (ba.hasDB = false ∨ GoTime.after rrepomd.timestamp GoTime.zero = true)) ∧
       (ba.hasDB = true → GoTime.after rrepomd.timestamp GoTime.zero = false →
        downloadPerformed (remoteTryCandidate w repoUrl remotedata remotemd localmd bname s) = false))) := by
  constructor
  · intro lrepomd hl
    rw [downloadPerformed_remoteTry w repoUrl remotedata remotemd localmd bname s ba rrepomd hba hr,
      hl]
    simp
  · intro hnone
    constructor
    · rw [downloadPerformed_remoteTry w repoUrl remotedata remotemd localmd bname s ba rrepomd hba hr,
        hnone]
      simp [RepoMD.zero]
    · intro hdb hafter
      rw [downloadPerformed_remoteTry w repoUrl remotedata remotemd localmd bname s ba rrepomd hba hr,
        hnone]
      simp [RepoMD.zero, hdb, hafter]

theorem c1_update_decision_witness :
    downloadPerformed (remoteTryCandidate c1w "u" []
      [("primary", ⟨"", GoTime.zero, "loc"⟩)] [] "b" ⟨none, none, none, []⟩) = false :=
  ((c1_update_decision c1w "u" [] [("primary", ⟨"", GoTime.zero, "loc"⟩)] [] "b"
      ⟨none, none, none, []⟩ ⟨"primary", true, true, true⟩ ⟨"", GoTime.zero, "loc"⟩
      (by decide) (by decide)).2 (by decide)).2 (by decide) (by decide)

/-- C6: with `HasDB` true and exactly equal remote and local record
timestamps, no download is performed. -/
theorem c6_equal_timestamps_no_download (w : World) (repoUrl : String) (remotedata : Bytes)
    (remotemd localmd : List (String × RepoMD)) (bname : String) (s : LoopState)
    (ba : BackendSpec) (rrepomd lrepomd : RepoMD)
    (hba : w.registry bname = some ba)
    (hr : mdFind remotemd ba.yumDataType = some rrepomd)
    (hl : mdFind localmd ba.yumDataType = some lrepomd)
    (hdb : ba.hasDB = true)
    (heq : rrepomd.timestamp = lrepomd.timestamp) :
    downloadPerformed (remoteTryCandidate w repoUrl remotedata remotemd localmd bname s) = false := by
  rw [downloadPerformed_remoteTry w repoUrl remotedata remotemd localmd bname s ba rrepomd hba hr,
    hl]
  simp only [Option.getD, hdb, heq, GoTime.after, Bool.not_true, Bool.false_or]
  simp

theorem c6_equal_timestamps_no_download_witness :
    downloadPerformed (remoteTryCandidate c1w "u" []
      [("primary", ⟨"", timeUnix 5 0, "loc"⟩)]
      [("primary", ⟨"", timeUnix 5 0, "oldloc"⟩)] "b" ⟨none, none, none, []⟩) = false :=
  c6_equal_timestamps_no_download c1w "u" []
    [("primary", ⟨"", timeUnix 5 0, "loc"⟩)]
    [("primary", ⟨"", timeUnix 5 0, "oldloc"⟩)] "b" ⟨none, none, none, []⟩
    ⟨"primary", true, true, true⟩ ⟨"", timeUnix 5 0, "loc"⟩ ⟨"", timeUnix 5 0, "oldloc"⟩
    (by decide) (by decide) (by decide) (by decide) (by decide)

/-- C7: the codec splits a timestamp into floor seconds plus a truncated
(never rounded-up) nanosecond part in `[0, 1e9)`; the input `1000.5`
decodes to the instant 500,000,000 nanoseconds past second 1000. -/
theorem c7_timestamp_split :
    (∀ ts : ℚ, (splitTimestamp ts).1 = Int.floor ts ∧
      0 ≤ (splitTimestamp ts).2 ∧ (splitTimestamp ts).2 < 1000000000 ∧
      ((splitTimestamp ts).2 : ℚ) ≤ (ts - (Int.floor ts : ℚ)) * 1000000000 ∧
      (ts - (Int.floor ts : ℚ)) * 1000000000 < (splitTimestamp ts).2 + 1) ∧
    buildRepoMD [⟨"primary", "chk", "loc", (1000.5 : ℚ)⟩] =
      [("primary", ⟨"chk", timeUnix 1000 500000000, "loc"⟩)] := by
  constructor
  · intro ts
    refine ⟨rfl, ?_, ?_, ?_, ?_⟩
    · apply Int.le_floor.mpr
      push_cast
      have := Int.floor_le ts
      nlinarith
    · apply Int.floor_lt.mpr
      push_cast
      have := Int.lt_floor_add_one ts
      nlinarith
    · exact Int.floor_le _
    · exact_mod_cast Int.lt_floor_add_one ((ts - (Int.floor ts : ℚ)) * 1000000000)
  · decide

/-- C8: zero-length codec input yields an empty mapping and no error, and a
missing local metadata file yields empty bytes and no error. -/
theorem c8_empty_input (xmlUnmarshal : Bytes → Except String (List RawData)) (w : World)
    (data : Bytes) (h : data.length = 0) :
    checkRepoMD xmlUnmarshal data = Except.ok [] ∧ localMetadata w none = Except.ok [] := by
  constructor
  · simp [checkRepoMD, h]
  · rfl

theorem c8_empty_input_witness :
    checkRepoMD c5xml [] = Except.ok [] ∧ localMetadata c5w none = Except.ok [] :=
  c8_empty_input c5xml c5w [] rfl

theorem localTry_events_ok (w : World) (md : List (String × RepoMD)) (bname : String)
    (s : LoopState) : (localTryCandidate w md bname s).events.all localOnlyEvent = true := by
  cases hreg : w.registry bname with
  | none => simp [localTryCandidate, hreg, localOnlyEvent]
  | some ba =>
    cases hf : mdFind md ba.yumDataType with
    | none => simp [localTryCandidate, hreg, hf, localOnlyEvent]
    | some r =>
      cases hl : ba.loadOK <;> simp [localTryCandidate, hreg, hf, hl, localOnlyEvent]

theorem localLoop_events_ok (w : World) (md : List (String × RepoMD)) :
    ∀ (bs : List String) (s : LoopState),
      s.events.all localOnlyEvent = true →
      (localLoopGo w md bs s).events.all localOnlyEvent = true
  | [], _, h => h
  | bname :: rest, s, h => by
    have h' : (s.events ++ (localTryCandidate w md bname s).events).all localOnlyEvent = true := by
      simp only [List.all_append, h, localTry_events_ok w md bname s, Bool.and_self]
    simp only [localLoopGo]
    split
    · exact h'
    · exact localLoop_events_ok w md rest _ h'

/-- C9: local-only synchronization produces only registry-instantiation and
`LoadDB` events — never an HTTP fetch, a `GetLatestDB` download, or a cache
write. -/
theorem c9_local_mode_no_network (w : World)
    (xmlUnmarshal : Bytes → Except String (List RawData))
    (backends : List String) (b0 : Option BackendSpec) (c0 : Option Bytes) :
    (setupBackendFromLocal w xmlUnmarshal backends b0 c0).finalState.events.all
      localOnlyEvent = true := by
  cases hld : localMetadata w c0 with
  | error e => simp [setupBackendFromLocal, hld]
  | ok data =>
    cases hmd : checkRepoMD xmlUnmarshal data with
    | error e => simp [setupBackendFromLocal, hld, hmd]
    | ok md =>
      have h := localLoop_events_ok w md backends ⟨none, b0, c0, []⟩ rfl
      simp only [setupBackendFromLocal, hld, hmd]
      split
      · exact h
      · exact h

/-- C3: the query forwarders dereference the nil `Backend` interface when no
backend is active, which is a runtime panic in Go — not an error return.
This contradicts the specification's requirement of deterministic failure,
so the claim marks a code bug; this theorem documents the code's actual
behaviour at the failing input. -/
theorem c3_nil_backend_queries_panic (name version release requirement : String) :
    repoFindLatestMatchingName none name version release = GoOutcome.panics ∧
    repoFindLatestMatchingRequire none requirement = GoOutcome.panics ∧
    repoGetPackages none = GoOutcome.panics :=
  ⟨rfl, rfl, rfl⟩

/-- C2 counterexample: the run succeeds with committed backend "b", which
(per the trace) never downloaded; yet the cache file ends up holding the
remote document `[2]`, persisted by candidate "a", which downloaded
successfully and then failed to load. So a download-then-load-fail
candidate does leave the cache updated, and the persisting candidate is not
the committed one. -/
theorem c2_counterexample :
    c2run.error = none ∧
    c2run.finalState.repoBackend = some c2baB ∧
    c2run.finalState.cache = some [2] ∧
    c2run.finalState.cache ≠ some [1] ∧
    c2run.finalState.events = [Event.evHttpGet "u/repodata/repomd.xml",
      Event.evNewBackend "a", Event.evGetLatestDB "a" "u/rloc", Event.evWriteFile [2],
      Event.evLoadDB "a", Event.evNewBackend "b", Event.evLoadDB "b"] := by
  decide

/-- C2 amended: the cache file changes only to the remote document bytes and
only upon a candidate's successful download followed by a successful write;
but the persisting candidate need not be the committed backend — a
candidate that downloads and persists and then fails to load leaves the
cache updated while the candidate itself is abandoned. -/
theorem c2_amended_persist (w : World) (repoUrl : String) (remotedata : Bytes)
    (remotemd localmd : List (String × RepoMD)) (bname : String) (s : LoopState) :
    ((remoteTryCandidate w repoUrl remotedata remotemd localmd bname s).cache ≠ s.cache →
      ((remoteTryCandidate w repoUrl remotedata remotemd localmd bname s).cache = some remotedata ∧
       downloadPerformed (remoteTryCandidate w repoUrl remotedata remotemd localmd bname s) = true ∧
       w.writeOK bname = true)) ∧
    (∀ ba rrepomd, w.registry bname = some ba →
      mdFind remotemd ba.yumDataType = some rrepomd →
      (!ba.hasDB || GoTime.after rrepomd.timestamp
        ((mdFind localmd ba.yumDataType).getD RepoMD.zero).timestamp) = true →
      ba.downloadOK = true → w.writeOK bname = true → ba.loadOK = false →
      ((remoteTryCandidate w repoUrl remotedata remotemd localmd bname s).cache = some remotedata ∧
       (remoteTryCandidate w repoUrl remotedata remotemd localmd bname s).succeeded = false)) := by
  constructor
  · intro hne
    cases hreg : w.registry bname with
    | none => simp [remoteTryCandidate, hreg] at hne
    | some ba =>
      cases hf : mdFind remotemd ba.yumDataType with
      | none => simp [remoteTryCandidate, hreg, hf] at hne
      | some rrepomd =>
        simp only [remoteTryCandidate, hreg, hf] at hne ⊢
        cases hc : (!ba.hasDB || GoTime.after rrepomd.timestamp
            ((mdFind localmd ba.yumDataType).getD RepoMD.zero).timestamp) <;>
          cases hd : ba.downloadOK <;> cases hw : w.writeOK bname <;> cases hl : ba.loadOK <;>
            simp [hc, hd, hw, hl, downloadPerformed, isDownloadEvent] at hne ⊢
  · intro ba rrepomd hba hf hc hd hw hl
    simp [remoteTryCandidate, hba, hf, hc, hd, hw, hl]

theorem c2_amended_persist_witness :
    (remoteTryCandidate c2w "u" [2] [("primary", ⟨"rc", timeUnix 5 0, "rloc"⟩)]
      [("primary", ⟨"lc", timeUnix 5 0, "lloc"⟩)] "a" ⟨none, none, some [1], []⟩).cache
        = some [2] ∧
    (remoteTryCandidate c2w "u" [2] [("primary", ⟨"rc", timeUnix 5 0, "rloc"⟩)]
      [("primary", ⟨"lc", timeUnix 5 0, "lloc"⟩)] "a" ⟨none, none, some [1], []⟩).succeeded
        = false :=
  (c2_amended_persist c2w "u" [2] [("primary", ⟨"rc", timeUnix 5 0, "rloc"⟩)]
      [("primary", ⟨"lc", timeUnix 5 0, "lloc"⟩)] "a" ⟨none, none, some [1], []⟩).2
    c2baA ⟨"rc", timeUnix 5 0, "rloc"⟩ (by decide) (by decide) (by decide) (by decide)
    (by decide) (by decide)

/-- C10 counterexample: the winning candidate "q" required no update
(`HasDB` true, remote and local record timestamps equal), yet the cache
file was rewritten during the run — candidate "p" downloaded and persisted
the remote document before failing to load. -/
theorem c10_counterexample :
    c10run.error = none ∧
    c10run.finalState.repoBackend = some c10baQ ∧
    c10baQ.hasDB = true ∧
    checkRepoMD c10xml [7] = Except.ok [("primary", ⟨"rc", timeUnix 9 0, "rloc"⟩)] ∧
    checkRepoMD c10xml [3] = Except.ok [("primary", ⟨"lc", timeUnix 9 0, "lloc"⟩)] ∧
    GoTime.after (timeUnix 9 0) (timeUnix 9 0) = false ∧
    c10run.finalState.cache = some [7] ∧
    c10run.finalState.cache ≠ some [3] := by
  refine ⟨by decide, by decide, by decide, rfl, rfl, by decide, by decide, by decide⟩

/-- C10 amended: a candidate that requires no update (`HasDB` true, remote
record not strictly later than the local record) performs no download and
no cache write itself and leaves the cache exactly as it found it; and a
successful run whose only tried candidate is such a no-update winner leaves
the cached metadata document unchanged (and different from the newer remote
document). -/
theorem c10_amended_no_write_by_winner (w : World) (repoUrl : String) (remotedata : Bytes)
    (remotemd localmd : List (String × RepoMD)) (bname : String) (s : LoopState)
    (ba : BackendSpec) (rrepomd : RepoMD)
    (hba : w.registry bname = some ba)
    (hf : mdFind remotemd ba.yumDataType = some rrepomd)
    (hdb : ba.hasDB = true)
    (hafter : GoTime.after rrepomd.timestamp
      ((mdFind localmd ba.yumDataType).getD RepoMD.zero).timestamp = false) :
    ((remoteTryCandidate w repoUrl remotedata remotemd localmd bname s).cache = s.cache ∧
     (remoteTryCandidate w repoUrl remotedata remotemd localmd bname s).events.all
       (fun e => !isDownloadEvent e && !isWriteEvent e) = true) ∧
    (c10brun.error = none ∧
     c10brun.finalState.cache = some [3] ∧
     c10brun.finalState.cache ≠ some [7]) := by
  constructor
  · simp only [remoteTryCandidate, hba, hf, hdb, hafter, Bool.not_true, Bool.false_or]
    cases hl : ba.loadOK <;>
      simp [hl, isDownloadEvent, isWriteEvent]
  · exact ⟨by decide, by decide, by decide⟩

theorem c10_amended_no_write_by_winner_witness :
    (remoteTryCandidate c10w "u" [7] [("primary", ⟨"rc", timeUnix 9 0, "rloc"⟩)]
      [("primary", ⟨"lc", timeUnix 9 0, "lloc"⟩)] "q" ⟨none, none, some [3], []⟩).cache
        = some [3] :=
  ((c10_amended_no_write_by_winner c10w "u" [7]
      [("primary", ⟨"rc", timeUnix 9 0, "rloc"⟩)]
      [("primary", ⟨"lc", timeUnix 9 0, "lloc"⟩)] "q" ⟨none, none, some [3], []⟩
      c10baQ ⟨"rc", timeUnix 9 0, "rloc"⟩
      (by decide) (by decide) (by decide) (by decide)).1).1

end
